import Mathlib

/-
Shallow embedding of `Optimizer.py` (classes `Optimizer` and `ModelSource`)
from the Optimization-DOonCloud repository, together with theorems about the
behaviour claimed in the specification.

External collaborators (the DOCloud `JobClient`, `urllib`/`fileinput` stream
fetching, and the `OPLCollector` serialization object) are modelled as an
oracle record of pure functions, since only their interface is visible from
this file.  Python exceptions are modelled with `Except`; because Python
mutations performed before a `raise` persist on the object, every stateful
operation returns a pair `(Except PyErr result, state)` rather than an
`Except` of the state.
-/

set_option autoImplicit false

namespace DOCloud

/-- Python exceptions that the embedded code can raise:
`valueError` for the explicit `raise ValueError(...)` statements,
`nameError` for referencing an unassigned local variable
(`return solution` on the non-processed branches of `solve`),
`remoteError` for an unexpected error propagating out of a remote call. -/
inductive PyErr where
  | valueError (msg : String)
  | nameError (msg : String)
  | remoteError (msg : String)
  deriving Repr, DecidableEq

/-- A byte stream opened during a solve call (a `cStringIO` buffer or an
opened URL).  `content` is the byte content, `closed` records whether
`close()` has been called on it. -/
structure ByteStream where
  content : String
  closed : Bool
  deriving Repr, DecidableEq

/-- Embeds class `ModelSource` (Optimizer.py lines 221-297): a named OPL
model given either by URLs of `.mod` files (`dotMods`) or by literal text
fragments (`modelText`).  `none` models Python `None`; `some []` models an
explicitly empty list (the two are distinguished by the constructor checks).  -/
structure ModelSource where
  name : String
  dotMods : Option (List String)
  modelText : Option (List String)
  deriving Repr, DecidableEq

/-- Python truthiness of an optional list: `None` and `[]` are falsy,
a non-empty list is truthy (`if self.dotMods:` etc.). -/
def listTruthy {α : Type} : Option (List α) → Bool
  | some (_ :: _) => true
  | _ => false

/-- Embeds `ModelSource.__init__` (lines 241-270): stores the name, raising
`ValueError("argument cannot be empty")` when `dotMods` or `modelText`
`is not None and not <list>`, i.e. is an empty (but non-None) list. -/
def mkModelSource (name : String) (dotMods modelText : Option (List String)) :
    Except PyErr ModelSource :=
  if dotMods = some ([] : List String) then
    .error (.valueError "argument cannot be empty")
  else if modelText = some ([] : List String) then
    .error (.valueError "argument cannot be empty")
  else
    .ok ⟨name, dotMods, modelText⟩

/-- Embeds `ModelSource.isEmpty` (lines 279-283): true iff both `dotMods`
and `modelText` are `None`. -/
def ModelSource.isEmpty (m : ModelSource) : Bool :=
  m.dotMods = none && m.modelText = none

/-- Embeds `ModelSource.toStream` (lines 285-297).  `fetch` models opening a
URL and reading its whole content (`urllib.FancyURLopener` fed through
`fileinput.input`, which concatenates the opened files in order); the
literal-text branch is `cStringIO.StringIO("".join(self.modelText))`.
When neither list is truthy it raises `ValueError("model source is empty")`. -/
def ModelSource.toStream (m : ModelSource) (fetch : String → String) :
    Except PyErr ByteStream :=
  match m.dotMods with
  | some (f :: fs) => .ok ⟨String.join ((f :: fs).map fetch), false⟩
  | _ =>
    match m.modelText with
    | some (t :: ts) => .ok ⟨String.join (t :: ts), false⟩
    | _ => .error (.valueError "model source is empty")

/-- Part of the stem derivation of `Optimizer.attachData` (line 132):
the basename of a path, i.e. everything after the last `/`. -/
def basenameChars (cs : List Char) : List Char :=
  ((cs.reverse).takeWhile (fun c => c ≠ '/')).reverse

/-- Part of the stem derivation of `Optimizer.attachData` (line 132):
the root of `os.path.splitext`, i.e. the basename with its last extension
removed; a basename whose characters before the last dot are all dots
(such as `.hidden`) has no extension and is returned whole. -/
def splitextRoot (cs : List Char) : List Char :=
  match (cs.reverse).dropWhile (fun c => c ≠ '.') with
  | [] => cs
  | _ :: rroot =>
    if (rroot.reverse).all (fun c => c = '.') then cs else rroot.reverse

/-- Embeds the stem derivation
`os.path.splitext(os.path.basename(urlparse(f)))[0]` of
`Optimizer.attachData` (line 132): strip the path components and the file
extension from an attachment reference. -/
def stemOf (url : String) : String :=
  String.mk (splitextRoot (basenameChars url.data))

/-- Result object produced by a solve.  Modelled from the spec: `OPLCollector`
is not part of this file's source; the spec describes the structured result
object as "constructed from a problem name, a result-name suffix, and a
result schema" and populated by "a deserialization operation that consumes a
byte stream".  `data` holds the deserialized payload. -/
structure OPLCollector where
  name : String
  schema : Option (List (String × String))
  data : String
  deriving Repr, DecidableEq

/-- Variable input data for one solve.  Modelled from the spec: the variable
input object "exposes a serialization operation that writes itself ... into a
provided destination buffer"; `name` is what `inputData.getName()` returns. -/
structure InputData where
  name : String
  payload : String
  deriving Repr, DecidableEq

/-- Response of `jobclient.execute` (lines 170-177): the job identifier, the
raw solution bytes (`response.solution`), the job metadata map
(`response.job_info`), and the optional failure message
(`response.getJob().getFailureInfo()`; `none` models a `None` failure info). -/
structure JobResponse where
  jobid : String
  solution : String
  job_info : List (String × String)
  failureMessage : Option String
  deriving Repr, DecidableEq

/-- Oracle for the external collaborators used by one `solve` call:
`fetch` reads an attachment or `.mod` URL, `serialize` is
`inputData.toJSON()`, `deserialize` is `OPLCollector.fromJSON` applied to a
result schema and the raw solution bytes, `execute` is `jobclient.execute`
on the assembled named inputs, and `getExecutionStatus` is
`jobclient.get_execution_status` (which, like any remote call, may raise). -/
structure RemoteOracle where
  fetch : String → String
  serialize : InputData → String
  deserialize : Option (List (String × String)) → String → String
  execute : List (String × String) → JobResponse
  getExecutionStatus : String → Except PyErr String

/-- Embeds the state of class `Optimizer` (lines 27-216).  `attachments` is
the dict built by `attachData` (insertion-ordered association list);
`streamsRegistry` is the instance-level list of opened streams (line 68);
`solveStatus` is a string enumerant, `none` modelling Python `None` when the
`solveStatus` key is absent from the job metadata; `jobid` is unset until the
first solve.  `deleteAttempts` logs each `jobclient.delete_job` call,
`submitted` counts `jobclient.execute` calls, and `printed` logs `print`
output; these three fields record the externally observable effects. -/
structure Optimizer where
  name : String
  model : Option ModelSource
  resultDataModel : Option (List (String × String))
  attachments : List (String × String)
  streamsRegistry : List ByteStream
  history : List OPLCollector
  solveStatus : Option String
  jobid : Option String
  deleteAttempts : List String
  submitted : Nat
  printed : List String
  deriving Repr, DecidableEq

/-- Embeds the loop of `Optimizer.attachData` (lines 130-135): for each
reference derive its stem; raise `ValueError(fileName + " already attached")`
if the stem is already a key of the map, otherwise insert it.  The map built
so far is returned even on error, since the Python `self.attachments` keeps
the entries inserted before the `raise`. -/
def attachInsert : List String → List (String × String) →
    Except PyErr Unit × List (String × String)
  | [], m => (.ok (), m)
  | f :: fs, m =>
    let fileName := stemOf f
    match m.lookup fileName with
    | some _ => (.error (.valueError (fileName ++ " already attached")), m)
    | none => attachInsert fs (m ++ [(fileName, f)])

/-- Embeds `Optimizer.attachData` (lines 120-136).  Note that
`self.attachments = {}` runs before the loop, so the previous map is
discarded even when the loop later raises on a duplicate stem. -/
def Optimizer.attachData (st : Optimizer) (attachments : Option (List String)) :
    Except PyErr Unit × Optimizer :=
  match attachments with
  | none => (.ok (), { st with attachments := [] })
  | some fs =>
    let r := attachInsert fs []
    (r.1, { st with attachments := r.2 })

/-- Embeds `Optimizer.__init__` (lines 47-74): store the name, model and
result data model, call `attachData` on the constructor attachments, start
with empty streams registry and history, and set the solve status to
`JobSolveStatus.UNKNOWN`.  Credentials only feed the `JobClient` collaborator
and are not part of the modelled state. -/
def Optimizer.init (problemName : String) (model : Option ModelSource)
    (resultDataModel : Option (List (String × String)))
    (attachments : List String) : Except PyErr Unit × Optimizer :=
  let st : Optimizer :=
    { name := problemName
      model := model
      resultDataModel := resultDataModel
      attachments := []
      streamsRegistry := []
      history := []
      solveStatus := some "UNKNOWN"
      jobid := none
      deleteAttempts := []
      submitted := 0
      printed := [] }
  st.attachData (some attachments)

/-- Embeds `Optimizer.setOPLModel` (lines 82-107): raise
`ValueError("model has already been set")` when a model exists, otherwise
construct a `ModelSource` (whose constructor may itself raise) and store it. -/
def Optimizer.setOPLModel (st : Optimizer) (name : String)
    (dotMods modelText : Option (List String)) : Except PyErr Unit × Optimizer :=
  if st.model.isSome then
    (.error (.valueError "model has already been set"), st)
  else
    match mkModelSource name dotMods modelText with
    | .error e => (.error e, st)
    | .ok ms => (.ok (), { st with model := some ms })

/-- Embeds `Optimizer.setResultDataModel` (lines 109-118): raise
`ValueError("results data model has already been defined")` when a result
data model exists, otherwise store the given one. -/
def Optimizer.setResultDataModel (st : Optimizer)
    (rdm : List (String × String)) : Except PyErr Unit × Optimizer :=
  if st.resultDataModel.isSome then
    (.error (.valueError "results data model has already been defined"), st)
  else
    (.ok (), { st with resultDataModel := some rdm })

/-- Closes every stream of the registry (`for s in self.streamsRegistry:
s.close()`, lines 199-200).  The list itself is not emptied. -/
def closeAll (reg : List ByteStream) : List ByteStream :=
  reg.map (fun s => { s with closed := true })

/-- Embeds `Optimizer.solve` (lines 138-203), line by line:

* raise `ValueError` when `self.model is None` (lines 152-153);
* `if self.model:` (line 154) tests the truthiness of a `ModelSource`
  object, which defines neither `__bool__` nor `__len__`, so the branch is
  always taken and `toStream` is called even on an empty model;
* the model stream, one opened stream per attachment, and (when variable
  input data is given) the serialization buffer plus its read stream are
  appended to `inputs` and to `self.streamsRegistry` (lines 154-168);
* `jobclient.execute` is called on the inputs and `self.jobid` recorded
  (lines 170-179);
* `get_execution_status` is queried (line 181); an error raised by it
  propagates immediately — the stream-closing loop and `delete_job` at
  lines 199-201 are not in a `finally` block and are skipped;
* on `PROCESSED`: register the solution stream, set `self.solveStatus` from
  the `solveStatus` key of the job metadata, build the result collector
  named `<name>Result<solutionId>`, append it to history (lines 182-189);
* on `FAILED`: print the failure message (lines 190-195); otherwise print
  the raw status (lines 196-197);
* close every registered stream and delete the job (lines 199-201);
* `return solution` (line 203): on the non-`PROCESSED` branches the local
  `solution` was never assigned, so Python raises an unbound-local error. -/
def Optimizer.solve (st : Optimizer) (oracle : RemoteOracle)
    (inputData : Option InputData) (solutionId : String) :
    Except PyErr OPLCollector × Optimizer :=
  match st.model with
  | none => (.error (.valueError "A model attachment must be provided to the optimizer"), st)
  | some m =>
    match m.toStream oracle.fetch with
    | .error e => (.error e, st)
    | .ok modelStream =>
      let inputs0 : List (String × String) := [(m.name, modelStream.content)]
      let st1 : Optimizer :=
        { st with streamsRegistry := st.streamsRegistry ++ [modelStream] }
      let attachStreams : List (String × ByteStream) :=
        st1.attachments.map (fun p => (p.1, ⟨oracle.fetch p.2, false⟩))
      let inputs1 := inputs0 ++ attachStreams.map (fun p => (p.1, p.2.content))
      let st2 : Optimizer :=
        { st1 with streamsRegistry := st1.streamsRegistry ++ attachStreams.map Prod.snd }
      let step3 : List (String × String) × Optimizer :=
        match inputData with
        | none => (inputs1, st2)
        | some d =>
          let outStream : ByteStream := ⟨oracle.serialize d, false⟩
          let inStream : ByteStream := ⟨outStream.content, false⟩
          (inputs1 ++ [(d.name ++ ".json", inStream.content)],
           { st2 with streamsRegistry := st2.streamsRegistry ++ [outStream, inStream] })
      let inputs2 := step3.1
      let st3 := step3.2
      let response := oracle.execute inputs2
      let st4 : Optimizer :=
        { st3 with submitted := st3.submitted + 1, jobid := some response.jobid }
      match oracle.getExecutionStatus response.jobid with
      | .error e => (.error e, st4)
      | .ok status =>
        if status = "PROCESSED" then
          let results : ByteStream := ⟨response.solution, false⟩
          let solution : OPLCollector :=
            { name := st4.name ++ "Result" ++ solutionId
              schema := st4.resultDataModel
              data := oracle.deserialize st4.resultDataModel response.solution }
          let st5 : Optimizer :=
            { st4 with
              streamsRegistry := st4.streamsRegistry ++ [results]
              solveStatus := response.job_info.lookup "solveStatus"
              history := st4.history ++ [solution] }
          let st6 : Optimizer :=
            { st5 with
              streamsRegistry := closeAll st5.streamsRegistry
              deleteAttempts := st5.deleteAttempts ++ [response.jobid] }
          (.ok solution, st6)
        else if status = "FAILED" then
          let message := response.failureMessage.getD ""
          let st5 : Optimizer := { st4 with printed := st4.printed ++ ["Failed " ++ message] }
          let st6 : Optimizer :=
            { st5 with
              streamsRegistry := closeAll st5.streamsRegistry
              deleteAttempts := st5.deleteAttempts ++ [response.jobid] }
          (.error (.nameError "local variable solution referenced before assignment"), st6)
        else
          let st5 : Optimizer := { st4 with printed := st4.printed ++ ["Job Status: " ++ status] }
          let st6 : Optimizer :=
            { st5 with
              streamsRegistry := closeAll st5.streamsRegistry
              deleteAttempts := st5.deleteAttempts ++ [response.jobid] }
          (.error (.nameError "local variable solution referenced before assignment"), st6)

/-- Embeds `Optimizer.getSolveStatus` (lines 205-216). -/
def Optimizer.getSolveStatus (st : Optimizer) : Option String :=
  st.solveStatus

/-- Concrete orchestrator used to evaluate the embedding: problem "Diet",
a literal-text model of one fragment `"m"`, a one-field result schema,
no attachments, fresh registry and history. -/
def stFixture : Optimizer :=
  { name := "Diet"
    model := some ⟨"diet.mod", none, some ["m"]⟩
    resultDataModel := some [("cost", "float")]
    attachments := []
    streamsRegistry := []
    history := []
    solveStatus := some "UNKNOWN"
    jobid := none
    deleteAttempts := []
    submitted := 0
    printed := [] }

/-- Concrete remote response used to evaluate the embedding. -/
def respFixture : JobResponse :=
  { jobid := "job-1"
    solution := "solution-bytes"
    job_info := [("solveStatus", "OPTIMAL_SOLUTION")]
    failureMessage := some "infeasible" }

/-- Oracle whose remote calls always return `respFixture` and whose status
query behaves as `stat`. -/
def oracleWith (stat : String → Except PyErr String) : RemoteOracle :=
  { fetch := fun u => u
    serialize := fun d => d.payload
    deserialize := fun _ b => b
    execute := fun _ => respFixture
    getExecutionStatus := stat }

/-- Oracle whose status query raises an unexpected remote error. -/
def oracleErr : RemoteOracle := oracleWith (fun _ => .error (.remoteError "connection lost"))

/-- Oracle whose status query reports `PROCESSED`. -/
def oracleOk : RemoteOracle := oracleWith (fun _ => .ok "PROCESSED")

/-- Oracle whose status query reports `FAILED`. -/
def oracleFail : RemoteOracle := oracleWith (fun _ => .ok "FAILED")

/-- Oracle whose status query reports the in-progress status `INTERRUPTED`. -/
def oracleOther : RemoteOracle := oracleWith (fun _ => .ok "INTERRUPTED")

/-- Orchestrator whose model object exists but has neither `dotMods` nor
`modelText` (an empty `ModelSource`). -/
def emptyModelFixture : Optimizer :=
  { stFixture with model := some ⟨"empty.mod", none, none⟩ }

/-- Orchestrator that already carries one attachment, for observing what a
failing `attachData` call does to a pre-existing map. -/
def stWithAttachment : Optimizer :=
  { stFixture with attachments := [("a", "a.dat")] }

/-- Helper: an association-list lookup succeeds exactly when the key occurs
among the stored keys. -/
theorem lookup_isSome_iff (k : String) (m : List (String × String)) :
    (m.lookup k).isSome = true ↔ k ∈ m.map Prod.fst := by
  induction m with
  | nil => simp [List.lookup]
  | cons p m ih =>
    obtain ⟨a, b⟩ := p
    by_cases h : k = a
    · subst h; simp [List.lookup]
    · have hba : (k == a) = false := by simp [h]
      simp only [List.lookup, hba, List.map_cons, List.mem_cons]
      rw [ih]
      simp [h]

/-- Helper: the `attachData` loop raises a duplicate error whenever some
reference's stem collides with an existing key or two references share a
stem. -/
theorem attachInsert_error_of_dup (fs : List String) :
    ∀ (m : List (String × String)),
      ((∃ x ∈ fs, stemOf x ∈ m.map Prod.fst) ∨ ¬ (fs.map stemOf).Nodup) →
      ∃ msg, (attachInsert fs m).1 = .error (.valueError msg) := by
  induction fs with
  | nil =>
    intro m h
    rcases h with ⟨x, hx, _⟩ | h
    · simp at hx
    · simp at h
  | cons f fs ih =>
    intro m h
    cases hl : m.lookup (stemOf f) with
    | some v =>
      exact ⟨stemOf f ++ " already attached", by simp [attachInsert, hl]⟩
    | none =>
      have hnotin : stemOf f ∉ m.map Prod.fst := by
        intro hin
        have := (lookup_isSome_iff (stemOf f) m).2 hin
        rw [hl] at this
        simp at this
      have hred : attachInsert (f :: fs) m = attachInsert fs (m ++ [(stemOf f, f)]) := by
        simp [attachInsert, hl]
      rw [hred]
      apply ih
      rcases h with ⟨x, hx, hmem⟩ | hnd
      · rcases List.mem_cons.1 hx with rfl | hx2
        · exact absurd hmem hnotin
        · exact Or.inl ⟨x, hx2, by simp [hmem]⟩
      · rw [List.map_cons, List.nodup_cons] at hnd
        by_cases hmem : stemOf f ∈ fs.map stemOf
        · rcases List.mem_map.1 hmem with ⟨x, hx, hsx⟩
          exact Or.inl ⟨x, hx, by simp [hsx]⟩
        · exact Or.inr fun hnd2 => hnd ⟨hmem, hnd2⟩

/-- Claim C5: on an orchestrator whose model is already set, `setOPLModel`
fails with the "model has already been set" error and leaves the state
(hence the existing model) unchanged; likewise, on an orchestrator whose
result data model is already set, `setResultDataModel` fails with the
"results data model has already been defined" error and leaves the state
unchanged. -/
theorem set_once_fields_immutable (st : Optimizer) (n : String)
    (dm mt : Option (List String)) (rdm : List (String × String)) :
    (st.model.isSome = true →
      st.setOPLModel n dm mt
        = (.error (.valueError "model has already been set"), st)) ∧
    (st.resultDataModel.isSome = true →
      st.setResultDataModel rdm
        = (.error (.valueError "results data model has already been defined"), st)) := by
  constructor
  · intro h
    simp [Optimizer.setOPLModel, h]
  · intro h
    simp [Optimizer.setResultDataModel, h]

/-- Witness for C5 on a concrete orchestrator that has both a model and a
result data model set. -/
theorem set_once_fields_immutable_witness :
    stFixture.model.isSome = true ∧ stFixture.resultDataModel.isSome = true ∧
    stFixture.setOPLModel "x.mod" none (some ["y"])
      = (.error (.valueError "model has already been set"), stFixture) ∧
    stFixture.setResultDataModel []
      = (.error (.valueError "results data model has already been defined"), stFixture) :=
  ⟨rfl, rfl,
    (set_once_fields_immutable stFixture "x.mod" none (some ["y"]) []).1 rfl,
    (set_once_fields_immutable stFixture "x.mod" none (some ["y"]) []).2 rfl⟩

/-- Claim C6: for every non-empty fragment list, the materialized stream of
a `ModelSource` equals the ordered byte-for-byte concatenation of the
fragment contents — on the external-reference branch the concatenation of
the fetched contents, on the literal-text branch the concatenation of the
strings — and when neither fragment list was supplied, `toStream` fails
with the "model source is empty" error. -/
theorem toStream_concatenates_fragments (n : String) (fetch : String → String)
    (dms ts : List String) (h1 : dms ≠ []) (h2 : ts ≠ []) :
    (ModelSource.mk n (some dms) none).toStream fetch
      = .ok ⟨String.join (dms.map fetch), false⟩ ∧
    (ModelSource.mk n none (some ts)).toStream fetch
      = .ok ⟨String.join ts, false⟩ ∧
    (ModelSource.mk n none none).toStream fetch
      = .error (.valueError "model source is empty") := by
  refine ⟨?_, ?_, rfl⟩
  · cases dms with
    | nil => exact absurd rfl h1
    | cons f fs => rfl
  · cases ts with
    | nil => exact absurd rfl h2
    | cons t tl => rfl

/-- Witness for C6 on concrete two-fragment lists, with a fetch function
that decorates each URL. -/
theorem toStream_concatenates_fragments_witness :
    (["a", "b"] : List String) ≠ [] ∧ (["t1", "t2"] : List String) ≠ [] ∧
    (ModelSource.mk "m.mod" (some ["a", "b"]) none).toStream (fun u => u ++ "!")
      = .ok ⟨"a!b!", false⟩ ∧
    (ModelSource.mk "m.mod" none (some ["t1", "t2"])).toStream (fun u => u ++ "!")
      = .ok ⟨"t1t2", false⟩ :=
  ⟨by decide, by decide,
    (toStream_concatenates_fragments "m.mod" (fun u => u ++ "!") ["a", "b"] ["t1", "t2"]
      (by decide) (by decide)).1,
    (toStream_concatenates_fragments "m.mod" (fun u => u ++ "!") ["a", "b"] ["t1", "t2"]
      (by decide) (by decide)).2.1⟩

/-- Claim C7: when a single `attachData` call on a reference list succeeds,
calling it twice in a row with the same list succeeds again and yields an
attachment map identical to the one produced by calling it once
(`attachData` rebuilds the map from scratch, so it is idempotent). -/
theorem attachData_idempotent (st : Optimizer) (fs : List String)
    (h : (st.attachData (some fs)).1 = .ok ()) :
    ((st.attachData (some fs)).2.attachData (some fs)).1 = .ok () ∧
    ((st.attachData (some fs)).2.attachData (some fs)).2.attachments
      = (st.attachData (some fs)).2.attachments :=
  ⟨h, rfl⟩

/-- Witness for C7 on a concrete two-reference list. -/
theorem attachData_idempotent_witness :
    (stFixture.attachData (some ["a.dat", "b.dat"])).1 = .ok () ∧
    ((stFixture.attachData (some ["a.dat", "b.dat"])).2.attachData
        (some ["a.dat", "b.dat"])).1 = .ok () ∧
    ((stFixture.attachData (some ["a.dat", "b.dat"])).2.attachData
        (some ["a.dat", "b.dat"])).2.attachments
      = (stFixture.attachData (some ["a.dat", "b.dat"])).2.attachments :=
  ⟨rfl,
    (attachData_idempotent stFixture ["a.dat", "b.dat"] rfl).1,
    (attachData_idempotent stFixture ["a.dat", "b.dat"] rfl).2⟩

/-- Claim C8: a `ModelSource` constructed with both a non-empty
external-reference list and a non-empty literal-text list is accepted (the
at-most-one-representation restriction is not enforced at construction),
and its materialization takes the external-reference branch, concatenating
only the referenced fragments and ignoring the literal text. -/
theorem mixed_model_source_ignores_text (n : String) (fetch : String → String)
    (dms ts : List String) (h1 : dms ≠ []) (h2 : ts ≠ []) :
    mkModelSource n (some dms) (some ts) = .ok ⟨n, some dms, some ts⟩ ∧
    (ModelSource.mk n (some dms) (some ts)).toStream fetch
      = .ok ⟨String.join (dms.map fetch), false⟩ := by
  constructor
  · simp [mkModelSource, h1, h2]
  · cases dms with
    | nil => exact absurd rfl h1
    | cons f fs => rfl

/-- Witness for C8 on concrete mixed fragment lists. -/
theorem mixed_model_source_ignores_text_witness :
    (["a"] : List String) ≠ [] ∧ (["text"] : List String) ≠ [] ∧
    mkModelSource "m.mod" (some ["a"]) (some ["text"])
      = .ok ⟨"m.mod", some ["a"], some ["text"]⟩ ∧
    (ModelSource.mk "m.mod" (some ["a"]) (some ["text"])).toStream (fun u => u ++ "!")
      = .ok ⟨"a!", false⟩ :=
  ⟨by decide, by decide,
    (mixed_model_source_ignores_text "m.mod" (fun u => u ++ "!") ["a"] ["text"]
      (by decide) (by decide)).1,
    (mixed_model_source_ignores_text "m.mod" (fun u => u ++ "!") ["a"] ["text"]
      (by decide) (by decide)).2⟩

/-- Claim C9: on an orchestrator whose model is set but empty (both fragment
lists are `None`), `solve` does not skip the model input: the truthiness
guard `if self.model:` treats every model object as non-empty, so
materialization is attempted and `solve` returns the
"model source is empty" error with the state unchanged — in particular
nothing was submitted to the remote service. -/
theorem solve_empty_model_raises_before_submit (st : Optimizer)
    (oracle : RemoteOracle) (inp : Option InputData) (tag : String)
    (ms : ModelSource) (hm : st.model = some ms)
    (h1 : ms.dotMods = none) (h2 : ms.modelText = none) :
    st.solve oracle inp tag = (.error (.valueError "model source is empty"), st) ∧
    (st.solve oracle inp tag).2.submitted = st.submitted := by
  obtain ⟨n, dm, mt⟩ := ms
  simp only at h1 h2
  subst h1; subst h2
  have heq : st.solve oracle inp tag
      = (.error (.valueError "model source is empty"), st) := by
    unfold Optimizer.solve
    rw [hm]
    rfl
  exact ⟨heq, by rw [heq]⟩

/-- Witness for C9 on a concrete orchestrator with an empty model object. -/
theorem solve_empty_model_raises_before_submit_witness :
    emptyModelFixture.model = some ⟨"empty.mod", none, none⟩ ∧
    emptyModelFixture.solve oracleOk none ""
      = (.error (.valueError "model source is empty"), emptyModelFixture) :=
  ⟨rfl,
    (solve_empty_model_raises_before_submit emptyModelFixture oracleOk none ""
      ⟨"empty.mod", none, none⟩ rfl rfl rfl).1⟩

/-- Claim C3: on a solve whose execution status is `PROCESSED`, the history
grows by exactly one entry — the result collector named
`<problem-name>Result<solutionTag>`, built from the declared result schema
and populated by deserializing the returned solution bytes — and that entry
is the return value; on any other execution status the history is
unchanged. -/
theorem solve_processed_appends_history (st : Optimizer) (oracle : RemoteOracle)
    (inp : Option InputData) (tag : String) (ms : ModelSource) (strm : ByteStream)
    (resp : JobResponse) (s : String)
    (hm : st.model = some ms)
    (hs : ms.toStream oracle.fetch = .ok strm)
    (hex : ∀ i, oracle.execute i = resp)
    (hst : oracle.getExecutionStatus resp.jobid = .ok s) :
    (s = "PROCESSED" →
      (st.solve oracle inp tag).2.history
        = st.history ++ [⟨st.name ++ "Result" ++ tag, st.resultDataModel,
            oracle.deserialize st.resultDataModel resp.solution⟩] ∧
      (st.solve oracle inp tag).1
        = .ok ⟨st.name ++ "Result" ++ tag, st.resultDataModel,
            oracle.deserialize st.resultDataModel resp.solution⟩) ∧
    (s ≠ "PROCESSED" → (st.solve oracle inp tag).2.history = st.history) := by
  constructor
  · intro hp
    subst hp
    simp only [Optimizer.solve, hm, hs, hex, hst]
    cases inp <;> simp
  · intro hne
    simp only [Optimizer.solve, hm, hs, hex, hst]
    cases inp with
    | none => simp only [hne, if_neg, if_false]; split <;> rfl
    | some d => simp only [hne, if_neg, if_false]; split <;> rfl

/-- Witness for C3: a concrete `PROCESSED` solve appends exactly the
deserialized result collector named `DietResults1` and returns it. -/
theorem solve_processed_appends_history_witness :
    (stFixture.solve oracleOk none "s1").2.history
      = stFixture.history ++ [⟨stFixture.name ++ "Result" ++ "s1",
          stFixture.resultDataModel,
          oracleOk.deserialize stFixture.resultDataModel respFixture.solution⟩] ∧
    (stFixture.solve oracleOk none "s1").1
      = .ok ⟨stFixture.name ++ "Result" ++ "s1", stFixture.resultDataModel,
          oracleOk.deserialize stFixture.resultDataModel respFixture.solution⟩ :=
  (solve_processed_appends_history stFixture oracleOk none "s1"
      ⟨"diet.mod", none, some ["m"]⟩ ⟨"m", false⟩ respFixture "PROCESSED"
      rfl rfl (fun _ => rfl) rfl).1 rfl

/-- Claim C10: a solve whose execution status is not `PROCESSED` leaves the
stored solve-status field unchanged; a `PROCESSED` solve sets it to whatever
the job metadata reports under the `solveStatus` key (possibly absent); and
a freshly constructed orchestrator starts at `UNKNOWN`. -/
theorem solve_status_frame (st : Optimizer) (oracle : RemoteOracle)
    (inp : Option InputData) (tag : String) (ms : ModelSource) (strm : ByteStream)
    (resp : JobResponse) (s : String)
    (hm : st.model = some ms)
    (hs : ms.toStream oracle.fetch = .ok strm)
    (hex : ∀ i, oracle.execute i = resp)
    (hst : oracle.getExecutionStatus resp.jobid = .ok s) :
    (s ≠ "PROCESSED" → (st.solve oracle inp tag).2.solveStatus = st.solveStatus) ∧
    (s = "PROCESSED" →
      (st.solve oracle inp tag).2.solveStatus = resp.job_info.lookup "solveStatus") ∧
    (∀ pn mdl rdm atts, (Optimizer.init pn mdl rdm atts).2.solveStatus
      = some "UNKNOWN") := by
  refine ⟨?_, ?_, ?_⟩
  · intro hne
    simp only [Optimizer.solve, hm, hs, hex, hst]
    cases inp with
    | none => simp only [hne, if_neg, if_false]; split <;> rfl
    | some d => simp only [hne, if_neg, if_false]; split <;> rfl
  · intro hp
    subst hp
    simp only [Optimizer.solve, hm, hs, hex, hst]
    cases inp <;> simp
  · intro pn mdl rdm atts
    unfold Optimizer.init Optimizer.attachData
    rfl

/-- Witness for C10: a concrete `INTERRUPTED` solve keeps the prior solve
status, and a concrete `PROCESSED` solve stores the metadata value. -/
theorem solve_status_frame_witness :
    (stFixture.solve oracleOther none "").2.solveStatus = stFixture.solveStatus ∧
    (stFixture.solve oracleOk none "").2.solveStatus = some "OPTIMAL_SOLUTION" :=
  ⟨(solve_status_frame stFixture oracleOther none ""
      ⟨"diet.mod", none, some ["m"]⟩ ⟨"m", false⟩ respFixture "INTERRUPTED"
      rfl rfl (fun _ => rfl) rfl).1 (by decide),
    ((solve_status_frame stFixture oracleOk none ""
      ⟨"diet.mod", none, some ["m"]⟩ ⟨"m", false⟩ respFixture "PROCESSED"
      rfl rfl (fun _ => rfl) rfl).2.1 rfl).trans rfl⟩

/-- Claim C1 is violated by the code; this theorem evaluates the embedded
`solve` at the failing inputs.  First, when the execution-status query
raises an unexpected error between submission and result-mapping, the
model stream recorded in the registry stays open and no job deletion is
attempted (the cleanup at lines 199-201 is not in a `finally` block).
Second, even on a fully successful solve the registry still holds the
(closed) streams when the call returns: it is never emptied, so the
"registry is empty when the call returns" part of the claim fails on every
exit path. -/
theorem solve_cleanup_violations :
    (stFixture.solve oracleErr none "").1 = .error (.remoteError "connection lost") ∧
    (stFixture.solve oracleErr none "").2.streamsRegistry = [⟨"m", false⟩] ∧
    (stFixture.solve oracleErr none "").2.deleteAttempts = [] ∧
    (stFixture.solve oracleOk none "").2.streamsRegistry
      = [⟨"m", true⟩, ⟨"solution-bytes", true⟩] ∧
    (stFixture.solve oracleOk none "").2.streamsRegistry ≠ [] ∧
    (stFixture.solve oracleOk none "").2.deleteAttempts = ["job-1"] :=
  ⟨rfl, rfl, rfl, rfl, by decide, rfl⟩

/-- Claim C2 is violated by the code; this theorem evaluates the embedded
`solve` at the failing input.  On a `FAILED` execution status the failure
message is printed and cleanup runs, but the call then raises an
unbound-local error at `return solution` (the local was never assigned on
this branch) instead of returning an observable empty/absent result. -/
theorem solve_failed_raises_unbound_local :
    (stFixture.solve oracleFail none "").1
      = .error (.nameError "local variable solution referenced before assignment") ∧
    (stFixture.solve oracleFail none "").2.printed = ["Failed infeasible"] ∧
    (stFixture.solve oracleFail none "").2.history = [] ∧
    (stFixture.solve oracleFail none "").2.streamsRegistry = [⟨"m", true⟩] ∧
    (stFixture.solve oracleFail none "").2.deleteAttempts = ["job-1"] :=
  ⟨rfl, rfl, rfl, rfl, rfl⟩

/-- Counterexample to claim C4: on an orchestrator already holding the
attachment map `[("a", "a.dat")]`, attaching `["b.dat", "c/b.json"]` (two
references with the same stem `b`) raises the duplicate error, yet the
attachment map afterwards is `[("b", "b.dat")]` — the map was reset at the
start of the call and is not unchanged from its pre-call value. -/
theorem attachData_dup_map_changed_cex :
    (stWithAttachment.attachData (some ["b.dat", "c/b.json"])).1
      = .error (.valueError "b already attached") ∧
    (stWithAttachment.attachData (some ["b.dat", "c/b.json"])).2.attachments
      = [("b", "b.dat")] ∧
    ¬ (stWithAttachment.attachData (some ["b.dat", "c/b.json"])).2.attachments
      = stWithAttachment.attachments :=
  ⟨rfl, rfl, by decide⟩

/-- Claim C4 as amended: when two references in the list derive the same
stem, `attachData` fails with a duplicate-attachment error, but the
attachment map is not restored to its pre-call value: the map is reset at
the start of the call, so afterwards it holds exactly the entries inserted
before the first duplicate and is independent of the pre-call map. -/
theorem attachData_duplicate_resets_map (st : Optimizer) (fs : List String)
    (h : ¬ (fs.map stemOf).Nodup) :
    (∃ msg, (st.attachData (some fs)).1 = .error (.valueError msg)) ∧
    (st.attachData (some fs)).2.attachments = (attachInsert fs []).2 ∧
    ∀ st2 : Optimizer, (st2.attachData (some fs)).2.attachments
      = (st.attachData (some fs)).2.attachments := by
  refine ⟨?_, rfl, fun st2 => rfl⟩
  obtain ⟨msg, hmsg⟩ := attachInsert_error_of_dup fs [] (Or.inr h)
  exact ⟨msg, hmsg⟩

/-- Witness for the amended C4 on a concrete duplicate-stem list. -/
theorem attachData_duplicate_resets_map_witness :
    ¬ ((["b.dat", "c/b.json"].map stemOf).Nodup) ∧
    (∃ msg, (stFixture.attachData (some ["b.dat", "c/b.json"])).1
        = .error (.valueError msg)) ∧
    (stFixture.attachData (some ["b.dat", "c/b.json"])).2.attachments
      = (attachInsert ["b.dat", "c/b.json"] []).2 :=
  ⟨by decide,
    (attachData_duplicate_resets_map stFixture ["b.dat", "c/b.json"] (by decide)).1,
    (attachData_duplicate_resets_map stFixture ["b.dat", "c/b.json"] (by decide)).2.1⟩

end DOCloud
